import Mathlib

/-!
Verification of the Paper Intake & Relevance-Gated Analysis Pipeline of the
RW_orange literature-review assistant.

The definitions below are a shallow embedding of the TypeScript sources:
  * `src/types.ts` — the `PaperAnalysis` / `AnalyzedPaper` data model;
  * `src/App.tsx` — the collection manager (`handleAcceptPaper`,
    `handleJsonUpload`, `handleBackup`);
  * `src/services/aiService.ts` — the AI service (`analyzePaper`,
    `checkPaperRelevance`, `enrichWithCrossRef`, the module-level client);
  * `src/components/AISettingsPanel.tsx` — the stored settings shape.

JavaScript strings are `String`, numbers that the pipeline uses are integers
(`Int`/`Nat`), `undefined`-able fields are `Option`, and thrown exceptions
are `Except`.  A JS string used in a boolean position is truthy iff nonempty;
where the sources test `x && y` on strings the embedding tests `x ≠ ""`.
-/

/-- Provider union type from `src/components/AISettingsPanel.tsx`
(`provider: 'claude' | 'gemini'`). -/
inductive Provider where
  | claude
  | gemini
deriving DecidableEq, Repr

/-- The `AISettings` interface of `src/components/AISettingsPanel.tsx`,
persisted to `localStorage` under the key `aiSettings` by `handleSave`. -/
structure AISettings where
  provider : Provider
  orangeApiKey : String
  geminiApiKey : String
  projectTitle : String
  projectDescription : String
  researchFocus : String
  conferenceTarget : String
  paperSections : String
  citationGoal : Nat
deriving DecidableEq, Repr

/-- Structure `CategoryA` of `src/types.ts`. -/
structure CategoryA where
  coreProblem : String
  theVillain : String
  gapClaim : String
  keyDefinitions : String
deriving DecidableEq, Repr

/-- Structure `CategoryB` of `src/types.ts`. -/
structure CategoryB where
  interactionParadigm : String
  embodimentType : String
  inputModality : String
  autonomyLevel : String
  socialGestures : String
  motionGeneration : String
deriving DecidableEq, Repr

/-- Structure `CategoryC` of `src/types.ts`. -/
structure CategoryC where
  algorithmModel : String
  hardwareSpecs : String
  latencyPerformance : String
  safetyMechanisms : String
deriving DecidableEq, Repr

/-- Structure `CategoryD` of `src/types.ts`. -/
structure CategoryD where
  studyDesign : String
  sampleSize : String
  taskDescription : String
  independentVariables : String
  dependentVariables : String
deriving DecidableEq, Repr

/-- Structure `CategoryE` of `src/types.ts`. -/
structure CategoryE where
  keyFinding : String
  unexpectedResults : String
  limitations : String
  futureWork : String
  relevanceToTelementoring : String
deriving DecidableEq, Repr

/-- Structure `PaperAnalysis` of `src/types.ts`.  `doi: string` there; an absent DOI is
the empty string (the extraction prompt itself says "if available, otherwise
empty string"), and both are falsy in the JS duplicate test.  `url?` is the
only optional field. -/
structure PaperAnalysis where
  citationKey : String
  title : String
  authors : List String
  journal : String
  year : String
  doi : String
  url : Option String
  volume : String
  issue : String
  abstract : String
  categoryA : CategoryA
  categoryB : CategoryB
  categoryC : CategoryC
  categoryD : CategoryD
  categoryE : CategoryE
deriving DecidableEq, Repr

/-- Status union of `AnalyzedPaper` in `src/types.ts`:
`'analyzing' | 'complete' | 'error'`. -/
inductive PaperStatus where
  | analyzing
  | complete
  | error
deriving DecidableEq, Repr

/-- Structure `AnalyzedPaper` of `src/types.ts`: the lifecycle wrapper stored in the
`papers` state of `src/App.tsx`. -/
structure AnalyzedPaper where
  id : String
  fileName : String
  status : PaperStatus
  data : Option PaperAnalysis
  errorMsg : Option String
  uploadDate : Nat
  isDuplicate : Option Bool
deriving DecidableEq, Repr

/-- JS `toLowerCase()` on a JS string, written over the character list so that
it evaluates by kernel reduction. -/
def jsToLower (s : String) : String :=
  String.mk (s.data.map Char.toLower)

/-- JS `trim()` on a JS string (leading and trailing whitespace removed),
written over the character list so that it evaluates by kernel reduction. -/
def jsTrim (s : String) : String :=
  String.mk (((s.data.dropWhile Char.isWhitespace).reverse.dropWhile
    Char.isWhitespace).reverse)

/-- DOI normalisation used by the duplicate scans in `src/App.tsx`
(`doi.toLowerCase().trim()`). -/
def normalizeDoi (s : String) : String :=
  jsTrim (jsToLower s)

/-- The per-record predicate of the duplicate scan in `handleAcceptPaper`
(`src/App.tsx` lines 88-93):
`p.id !== newId && p.status === 'complete' && p.data?.doi && analysis.doi &&
 p.data?.doi.toLowerCase().trim() === analysis.doi.toLowerCase().trim()`. -/
def doiMatch (newId : String) (analysisDoi : String) (p : AnalyzedPaper) : Bool :=
  p.id != newId &&
  p.status == PaperStatus.complete &&
  (match p.data with
   | some d => d.doi != "" && analysisDoi != "" &&
       normalizeDoi d.doi == normalizeDoi analysisDoi
   | none => false)

/-- The `prev.some(...)` duplicate scan of `handleAcceptPaper`
(`src/App.tsx` lines 88-93). -/
def dupScan (newId : String) (analysis : PaperAnalysis)
    (papers : List AnalyzedPaper) : Bool :=
  papers.any (doiMatch newId analysis.doi)

/-- The success commit of `handleAcceptPaper` (`src/App.tsx` lines 86-103):
computes the duplicate flag against the current collection and maps the
record with the fresh id to `complete` with the analysis attached. -/
def commitComplete (newId : String) (analysis : PaperAnalysis)
    (papers : List AnalyzedPaper) : List AnalyzedPaper :=
  let isDup := dupScan newId analysis papers
  papers.map fun p =>
    if p.id == newId then
      { p with status := PaperStatus.complete, data := some analysis,
               isDuplicate := some isDup }
    else p

/-- The failure commit of `handleAcceptPaper` (`src/App.tsx` lines 107-109):
maps the record with the fresh id to `error` with the message attached. -/
def commitFailure (newId : String) (msg : String)
    (papers : List AnalyzedPaper) : List AnalyzedPaper :=
  papers.map fun p =>
    if p.id == newId then
      { p with status := PaperStatus.error, errorMsg := some msg }
    else p

/-- The record literal created by `handleAcceptPaper` (`src/App.tsx`
lines 74-79): `{ id, fileName, status: 'analyzing', uploadDate }`. -/
def mkNewPaper (newId fileName : String) (uploadDate : Nat) : AnalyzedPaper :=
  { id := newId, fileName := fileName, status := PaperStatus.analyzing,
    data := none, errorMsg := none, uploadDate := uploadDate,
    isDuplicate := none }

/-- Insertion `setPapers(prev => [newPaper, ...prev])` (`src/App.tsx` line 81). -/
def acceptStart (newId fileName : String) (uploadDate : Nat)
    (papers : List AnalyzedPaper) : List AnalyzedPaper :=
  mkNewPaper newId fileName uploadDate :: papers

/-- The whole `handleAcceptPaper` pipeline (`src/App.tsx` lines 70-111):
the record is inserted in `analyzing` state, then the single awaited
analysis outcome is committed — `complete` on success, `error` on a thrown
failure.  There is no retry path in the source. -/
def acceptPipeline (newId fileName : String) (uploadDate : Nat)
    (papers : List AnalyzedPaper) (outcome : Except String PaperAnalysis) :
    List AnalyzedPaper :=
  match outcome with
  | Except.ok analysis =>
      commitComplete newId analysis (acceptStart newId fileName uploadDate papers)
  | Except.error msg =>
      commitFailure newId msg (acceptStart newId fileName uploadDate papers)

/-- The merge branch of `handleJsonUpload` (`src/App.tsx` lines 219-223):
`existingIds = new Set(prev.map(p => p.id));
 newPapers = importedPapers.filter(p => !existingIds.has(p.id));
 return [...prev, ...newPapers]`. -/
def mergeImport (prev imported : List AnalyzedPaper) : List AnalyzedPaper :=
  let existingIds := prev.map (fun p => p.id)
  prev ++ imported.filter (fun p => !(existingIds.contains p.id))

/-!
The JSON layer.

`JSON.parse` / `JSON.stringify` are modelled by an explicit JSON value type,
an executable text parser (`Json.parse`), and per-type encoders mirroring
`JSON.stringify` (which omits `undefined` properties).  JSON numbers used by
this pipeline are integers.
-/

inductive Json where
  | null
  | bool (b : Bool)
  | num (n : Int)
  | str (s : String)
  | arr (elems : List Json)
  | obj (fields : List (String × Json))

namespace Json

def lbraceChar : Char := Char.ofNat 123
def rbraceChar : Char := Char.ofNat 125
def quoteChar : Char := Char.ofNat 34

def isWs (c : Char) : Bool :=
  c == ' ' || c == '\n' || c == '\t' || c == '\r'

def skipWs : List Char → List Char
  | [] => []
  | c :: rest => if isWs c then skipWs rest else c :: rest

/-- One string-escape step after a backslash, as in JSON source text. -/
def unescape (c : Char) : Char :=
  if c == 'n' then '\n'
  else if c == 't' then '\t'
  else if c == 'r' then '\r'
  else c

/-- Parse the body of a JSON string after the opening quote. -/
def parseStringBody : List Char → Option (String × List Char)
  | [] => none
  | c :: rest =>
    if c == quoteChar then some ("", rest)
    else if c == '\\' then
      match rest with
      | [] => none
      | e :: rest2 =>
        match parseStringBody rest2 with
        | some (s, r) => some (String.singleton (unescape e) ++ s, r)
        | none => none
    else
      match parseStringBody rest with
      | some (s, r) => some (String.singleton c ++ s, r)
      | none => none

def parseDigits : List Char → Nat → Option (Nat × List Char)
  | [], acc => some (acc, [])
  | c :: rest, acc =>
    if c.isDigit then parseDigits rest (acc * 10 + (c.toNat - 48))
    else some (acc, c :: rest)

/-- Parse a JSON integer literal (optional minus sign, digit run). -/
def parseNum : List Char → Option (Int × List Char)
  | [] => none
  | c :: rest =>
    if c == '-' then
      match rest with
      | d :: _ =>
        if d.isDigit then
          match parseDigits rest 0 with
          | some (n, r) => some (-(Int.ofNat n), r)
          | none => none
        else none
      | [] => none
    else if c.isDigit then
      match parseDigits (c :: rest) 0 with
      | some (n, r) => some (Int.ofNat n, r)
      | none => none
    else none

mutual

/-- Fuel-bounded JSON value parser over the remaining characters. -/
def parseVal : Nat → List Char → Option (Json × List Char)
  | 0, _ => none
  | fuel + 1, s =>
    match skipWs s with
    | 'n' :: 'u' :: 'l' :: 'l' :: rest => some (Json.null, rest)
    | 't' :: 'r' :: 'u' :: 'e' :: rest => some (Json.bool true, rest)
    | 'f' :: 'a' :: 'l' :: 's' :: 'e' :: rest => some (Json.bool false, rest)
    | c :: rest =>
      if c == quoteChar then
        match parseStringBody rest with
        | some (sv, r) => some (Json.str sv, r)
        | none => none
      else if c == '[' then
        match skipWs rest with
        | c2 :: r2 =>
          if c2 == ']' then some (Json.arr [], r2)
          else
            match parseVal fuel (c2 :: r2) with
            | some (v, r3) => parseArrRest fuel [v] r3
            | none => none
        | [] => none
      else if c == lbraceChar then
        match skipWs rest with
        | c2 :: r2 =>
          if c2 == rbraceChar then some (Json.obj [], r2)
          else
            match parseMember fuel (c2 :: r2) with
            | some (kv, r3) => parseObjRest fuel [kv] r3
            | none => none
        | [] => none
      else
        match parseNum (c :: rest) with
        | some (n, r) => some (Json.num n, r)
        | none => none
    | [] => none

/-- Parse `"key" : value`. -/
def parseMember : Nat → List Char → Option ((String × Json) × List Char)
  | 0, _ => none
  | fuel + 1, s =>
    match skipWs s with
    | c :: rest =>
      if c == quoteChar then
        match parseStringBody rest with
        | some (k, r) =>
          match skipWs r with
          | ':' :: r2 =>
            match parseVal fuel r2 with
            | some (v, r3) => some ((k, v), r3)
            | none => none
          | _ => none
        | none => none
      else none
    | [] => none

/-- Remaining `, value`* `]` of an array. -/
def parseArrRest : Nat → List Json → List Char → Option (Json × List Char)
  | 0, _, _ => none
  | fuel + 1, acc, s =>
    match skipWs s with
    | ']' :: rest => some (Json.arr acc.reverse, rest)
    | ',' :: rest =>
      match parseVal fuel rest with
      | some (v, r) => parseArrRest fuel (v :: acc) r
      | none => none
    | _ => none

/-- Remaining `, member`* and closing brace of an object. -/
def parseObjRest : Nat → List (String × Json) → List Char →
    Option (Json × List Char)
  | 0, _, _ => none
  | fuel + 1, acc, s =>
    match skipWs s with
    | c :: rest =>
      if c == rbraceChar then some (Json.obj acc.reverse, rest)
      else if c == ',' then
        match parseMember fuel rest with
        | some (kv, r) => parseObjRest fuel (kv :: acc) r
        | none => none
      else none
    | [] => none

end

/-- Model of `JSON.parse`: the whole text must be one JSON value surrounded by
whitespace only; anything else throws (here: `Except.error`). -/
def parse (text : String) : Except String Json :=
  let cs := text.toList
  match parseVal (cs.length + 1) cs with
  | some (v, rest) =>
      if (skipWs rest).isEmpty then Except.ok v
      else Except.error "Unexpected token in JSON"
  | none => Except.error "Unexpected token in JSON"

/-- Property read `obj[key]` on a parsed JSON value: `none` is JS
`undefined` (missing key or not an object). -/
def getField (j : Json) (key : String) : Option Json :=
  match j with
  | Json.obj fields => fields.lookup key
  | _ => none

/-- Duck-typed string read with a default, mirroring how the TS code uses a
parsed field it assumes to be a string. -/
def getStr (j : Json) (key : String) (dflt : String) : String :=
  match getField j key with
  | some (Json.str s) => s
  | _ => dflt

end Json

/-!
Serialization of the collection (`handleBackup` / `handleJsonUpload`)

`JSON.stringify` emits every defined property in declaration order and omits
`undefined` ones; the encoders below mirror that on the typed records.  The
decoders mirror how the TS code reads the parsed objects back: plain property
access with no schema validation (`src/App.tsx` line 208 comment "Ideally
validate this schema"), so they are total, with JS-style defaults for shapes
the application itself never writes.
-/

def CategoryA.toJson (c : CategoryA) : Json :=
  Json.obj [("coreProblem", Json.str c.coreProblem),
            ("theVillain", Json.str c.theVillain),
            ("gapClaim", Json.str c.gapClaim),
            ("keyDefinitions", Json.str c.keyDefinitions)]

def CategoryA.ofJson (j : Json) : CategoryA :=
  { coreProblem := j.getStr "coreProblem" "",
    theVillain := j.getStr "theVillain" "",
    gapClaim := j.getStr "gapClaim" "",
    keyDefinitions := j.getStr "keyDefinitions" "" }

def CategoryB.toJson (c : CategoryB) : Json :=
  Json.obj [("interactionParadigm", Json.str c.interactionParadigm),
            ("embodimentType", Json.str c.embodimentType),
            ("inputModality", Json.str c.inputModality),
            ("autonomyLevel", Json.str c.autonomyLevel),
            ("socialGestures", Json.str c.socialGestures),
            ("motionGeneration", Json.str c.motionGeneration)]

def CategoryB.ofJson (j : Json) : CategoryB :=
  { interactionParadigm := j.getStr "interactionParadigm" "",
    embodimentType := j.getStr "embodimentType" "",
    inputModality := j.getStr "inputModality" "",
    autonomyLevel := j.getStr "autonomyLevel" "",
    socialGestures := j.getStr "socialGestures" "",
    motionGeneration := j.getStr "motionGeneration" "" }

def CategoryC.toJson (c : CategoryC) : Json :=
  Json.obj [("algorithmModel", Json.str c.algorithmModel),
            ("hardwareSpecs", Json.str c.hardwareSpecs),
            ("latencyPerformance", Json.str c.latencyPerformance),
            ("safetyMechanisms", Json.str c.safetyMechanisms)]

def CategoryC.ofJson (j : Json) : CategoryC :=
  { algorithmModel := j.getStr "algorithmModel" "",
    hardwareSpecs := j.getStr "hardwareSpecs" "",
    latencyPerformance := j.getStr "latencyPerformance" "",
    safetyMechanisms := j.getStr "safetyMechanisms" "" }

def CategoryD.toJson (c : CategoryD) : Json :=
  Json.obj [("studyDesign", Json.str c.studyDesign),
            ("sampleSize", Json.str c.sampleSize),
            ("taskDescription", Json.str c.taskDescription),
            ("independentVariables", Json.str c.independentVariables),
            ("dependentVariables", Json.str c.dependentVariables)]

def CategoryD.ofJson (j : Json) : CategoryD :=
  { studyDesign := j.getStr "studyDesign" "",
    sampleSize := j.getStr "sampleSize" "",
    taskDescription := j.getStr "taskDescription" "",
    independentVariables := j.getStr "independentVariables" "",
    dependentVariables := j.getStr "dependentVariables" "" }

def CategoryE.toJson (c : CategoryE) : Json :=
  Json.obj [("keyFinding", Json.str c.keyFinding),
            ("unexpectedResults", Json.str c.unexpectedResults),
            ("limitations", Json.str c.limitations),
            ("futureWork", Json.str c.futureWork),
            ("relevanceToTelementoring", Json.str c.relevanceToTelementoring)]

def CategoryE.ofJson (j : Json) : CategoryE :=
  { keyFinding := j.getStr "keyFinding" "",
    unexpectedResults := j.getStr "unexpectedResults" "",
    limitations := j.getStr "limitations" "",
    futureWork := j.getStr "futureWork" "",
    relevanceToTelementoring := j.getStr "relevanceToTelementoring" "" }

/-- Duck-typed read of one element of a string array field. -/
def jsStrElem : Json → String
  | Json.str s => s
  | _ => ""

def PaperAnalysis.toJson (a : PaperAnalysis) : Json :=
  Json.obj ([("citationKey", Json.str a.citationKey),
             ("title", Json.str a.title),
             ("authors", Json.arr (a.authors.map Json.str)),
             ("journal", Json.str a.journal),
             ("year", Json.str a.year),
             ("doi", Json.str a.doi)] ++
            (match a.url with
             | some u => [("url", Json.str u)]
             | none => []) ++
            [("volume", Json.str a.volume),
             ("issue", Json.str a.issue),
             ("abstract", Json.str a.abstract),
             ("categoryA", a.categoryA.toJson),
             ("categoryB", a.categoryB.toJson),
             ("categoryC", a.categoryC.toJson),
             ("categoryD", a.categoryD.toJson),
             ("categoryE", a.categoryE.toJson)])

def PaperAnalysis.ofJson (j : Json) : PaperAnalysis :=
  { citationKey := j.getStr "citationKey" "",
    title := j.getStr "title" "",
    authors :=
      match j.getField "authors" with
      | some (Json.arr elems) => elems.map jsStrElem
      | _ => [],
    journal := j.getStr "journal" "",
    year := j.getStr "year" "",
    doi := j.getStr "doi" "",
    url :=
      match j.getField "url" with
      | some (Json.str s) => some s
      | _ => none,
    volume := j.getStr "volume" "",
    issue := j.getStr "issue" "",
    abstract := j.getStr "abstract" "",
    categoryA := CategoryA.ofJson ((j.getField "categoryA").getD Json.null),
    categoryB := CategoryB.ofJson ((j.getField "categoryB").getD Json.null),
    categoryC := CategoryC.ofJson ((j.getField "categoryC").getD Json.null),
    categoryD := CategoryD.ofJson ((j.getField "categoryD").getD Json.null),
    categoryE := CategoryE.ofJson ((j.getField "categoryE").getD Json.null) }

def PaperStatus.toStr : PaperStatus → String
  | PaperStatus.analyzing => "analyzing"
  | PaperStatus.complete => "complete"
  | PaperStatus.error => "error"

/-- Read a status string back.  The application only ever persists the three
union members; anything else would be a foreign file, decoded leniently. -/
def PaperStatus.ofStr (s : String) : PaperStatus :=
  if s == "complete" then PaperStatus.complete
  else if s == "error" then PaperStatus.error
  else PaperStatus.analyzing

def AnalyzedPaper.toJson (p : AnalyzedPaper) : Json :=
  Json.obj ([("id", Json.str p.id),
             ("fileName", Json.str p.fileName),
             ("status", Json.str p.status.toStr)] ++
            (match p.data with
             | some d => [("data", d.toJson)]
             | none => []) ++
            (match p.errorMsg with
             | some m => [("errorMsg", Json.str m)]
             | none => []) ++
            [("uploadDate", Json.num (Int.ofNat p.uploadDate))] ++
            (match p.isDuplicate with
             | some b => [("isDuplicate", Json.bool b)]
             | none => []))

def AnalyzedPaper.ofJson (j : Json) : AnalyzedPaper :=
  { id := j.getStr "id" "",
    fileName := j.getStr "fileName" "",
    status := PaperStatus.ofStr (j.getStr "status" ""),
    data :=
      match j.getField "data" with
      | some d => some (PaperAnalysis.ofJson d)
      | none => none,
    errorMsg :=
      match j.getField "errorMsg" with
      | some (Json.str m) => some m
      | _ => none,
    uploadDate :=
      match j.getField "uploadDate" with
      | some (Json.num n) => n.toNat
      | _ => 0,
    isDuplicate :=
      match j.getField "isDuplicate" with
      | some (Json.bool b) => some b
      | _ => none }

/-- Export `handleBackup` (`src/App.tsx` lines 237-240): the backup file is
`JSON.stringify(papers, null, 2)` — the JSON array of all records. -/
def exportBackup (papers : List AnalyzedPaper) : Json :=
  Json.arr (papers.map AnalyzedPaper.toJson)

/-- The replace branch of `handleJsonUpload` (`src/App.tsx` lines 204-232):
the parsed import is accepted iff `Array.isArray(importedPapers)`, and then
becomes the collection wholesale (`setPapers(importedPapers)`). -/
def importReplace (j : Json) : Option (List AnalyzedPaper) :=
  match j with
  | Json.arr elems => some (elems.map AnalyzedPaper.ofJson)
  | _ => none

/-!
Bibliographic registry client and enrichment
(`src/services/aiService.ts` lines 35-69, `enrichWithCrossRef`)

The HTTP boundary is modelled as data: the request actually issued is a
`RegistryRequest` value, and the environment answers with a
`RegistryResult`.  `RegistryResult.failure` covers every path the `catch`
swallows — unreachable network (`fetch` throws), a 404 whose body is not
JSON (`response.json()` throws), and a JSON body without `message`
(`data.message.items` throws) — while `RegistryResult.items` is a decoded
`message.items` list (possibly empty, which the code treats as no match).
The code only reads `item.DOI` from a hit, so that is the item's payload.
-/

/-- Which lookup is sent to `api.crossref.org`.  `byQuery q` stands for
`GET /works?query=encodeURIComponent(q)&rows=1`; `byDoi d` for the
`GET /works/d` lookup the specification describes (the percent-encoding is
an injective transport detail left at the boundary). -/
inductive RegistryRequest where
  | byDoi (doi : String)
  | byQuery (q : String)
deriving DecidableEq, Repr

structure RegistryItem where
  DOI : String
deriving DecidableEq, Repr

inductive RegistryResult where
  | failure
  | items (l : List RegistryItem)
deriving DecidableEq, Repr

/-- JS `split(" ")` on a JS string: cut at every single space character
(`"".split(" ")` is `[""]`). -/
def jsSplitSpaceAux : List Char → List Char → List String
  | [], acc => [String.mk acc.reverse]
  | c :: rest, acc =>
    if c == ' ' then String.mk acc.reverse :: jsSplitSpaceAux rest []
    else jsSplitSpaceAux rest (c :: acc)

def jsSplitSpace (s : String) : List String :=
  jsSplitSpaceAux s.data []

/-- Expression `firstAuthor.split(" ").pop() || ""` (`aiService.ts` line 40): the last
space-separated word. -/
def jsLastWord (s : String) : String :=
  (jsSplitSpace s).getLastD ""

/-- The single request `enrichWithCrossRef` constructs
(`aiService.ts` lines 39-46): always the free-text query
`` `${analysis.title} ${authorLastName}` `` with
`authorLastName = (analysis.authors?.[0] || "").split(" ").pop() || ""`. -/
def crossRefRequest (a : PaperAnalysis) : RegistryRequest :=
  RegistryRequest.byQuery (a.title ++ " " ++ jsLastWord (a.authors.headD ""))

/-- Function `enrichWithCrossRef` (`aiService.ts` lines 35-69): issue the query; on a
nonempty `message.items`, overwrite `doi` and `url` from the first item;
on an empty list or any swallowed failure, return the input unchanged. -/
def enrichWithCrossRef (lookup : RegistryRequest → RegistryResult)
    (a : PaperAnalysis) : PaperAnalysis :=
  match lookup (crossRefRequest a) with
  | RegistryResult.items (item :: _) =>
      { a with doi := item.DOI,
               url := some ("https://doi.org/" ++ item.DOI) }
  | _ => a

/-!
Structured analysis extraction
(`src/services/aiService.ts` lines 71-139, `analyzePaper`)

After the model call, the handling of the response is (lines 125-133):
`const text = response.choices[0]?.message?.content;
 if (!text) throw new Error("No response text from AI Provider");
 const initialAnalysis: PaperAnalysis = JSON.parse(text);
 const finalAnalysis = await enrichWithCrossRef(initialAnalysis);`
The raw text goes straight into `JSON.parse`; there is no preprocessing,
and the parsed object is used as a `PaperAnalysis` without validation
(modelled by the total duck-typed `PaperAnalysis.ofJson`).
-/

def analyzePaperResponse (responseText : Option String)
    (lookup : RegistryRequest → RegistryResult) :
    Except String PaperAnalysis :=
  match responseText with
  | none => Except.error "No response text from AI Provider"
  | some text =>
    match Json.parse text with
    | Except.error e => Except.error e
    | Except.ok j => Except.ok (enrichWithCrossRef lookup (PaperAnalysis.ofJson j))

/-- Modelled from the spec (§4.4, §8): "stripping common code-fence
wrapping (e.g. a response wrapped in three-backtick `json` fences)".  This
definition follows the specification's words, not the cited source — it
exists to compare the claimed behaviour with `analyzePaperResponse`. -/
def specStripCodeFences (s : String) : String :=
  let cs := (jsTrim s).data
  let fence := "```".data
  let fenceJson := "```json".data
  let cs1 := if fenceJson.isPrefixOf cs then cs.drop 7
             else if fence.isPrefixOf cs then cs.drop 3
             else cs
  let cs2 := if fence.reverse.isPrefixOf cs1.reverse then
               (cs1.reverse.drop 3).reverse
             else cs1
  jsTrim (String.mk cs2)

/-!
Relevance screening
(`src/services/aiService.ts` lines 242-314, `checkPaperRelevance`)

The response handling is (lines 304-309):
`const text = response.choices[0]?.message?.content;
 if (!text) throw new Error("No response from AI");
 return JSON.parse(text);`
The parsed object is returned as the screening result verbatim — the
`isRelevant = score >= 40` rule appears only inside the prompt text sent to
the model; the code never recomputes or checks it.
-/

structure RelevanceResult where
  isRelevant : Bool
  score : Int
  reasoning : String
  matchedSections : List String
deriving DecidableEq, Repr

/-- Duck-typed read of the screening result fields from the parsed JSON,
with JS-style defaults for shapes the code would pass through untyped. -/
def RelevanceResult.ofJson (j : Json) : RelevanceResult :=
  { isRelevant :=
      match j.getField "isRelevant" with
      | some (Json.bool b) => b
      | _ => false,
    score :=
      match j.getField "score" with
      | some (Json.num n) => n
      | _ => 0,
    reasoning := j.getStr "reasoning" "",
    matchedSections :=
      match j.getField "matchedSections" with
      | some (Json.arr elems) => elems.map jsStrElem
      | _ => [] }

def checkPaperRelevanceResponse (responseText : Option String) :
    Except String RelevanceResult :=
  match responseText with
  | none => Except.error "No response from AI"
  | some text =>
    match Json.parse text with
    | Except.error e => Except.error e
    | Except.ok j => Except.ok (RelevanceResult.ofJson j)

/-- A well-formed screening response object, as the prompt's JSON template
describes it (`aiService.ts` lines 282-288). -/
def mkRelevanceJson (isRelevant : Bool) (score : Int) (reasoning : String)
    (matchedSections : List String) : Json :=
  Json.obj [("isRelevant", Json.bool isRelevant),
            ("score", Json.num score),
            ("reasoning", Json.str reasoning),
            ("matchedSections", Json.arr (matchedSections.map Json.str))]

/-!
Model-call credential
(`src/services/aiService.ts` lines 8-16 and
`src/components/AISettingsPanel.tsx` lines 36-42)

`aiService.ts` builds one module-level client:
`const API_KEY = "sk-LDYDnMFSsPZAPbHVkwrPbA";
 const client = new OpenAI({ apiKey: API_KEY, baseURL: API_BASE, ... });`
and every `client.chat.completions.create` call in the file goes through
it.  The module contains no read of the `aiSettings` record that
`AISettingsPanel.handleSave` persists, so the credential attached to an
invocation is the module constant whatever the stored settings are at call
time.  `bearerForCall` makes that dependency (vacuous by construction in
the source) explicit.
-/

def API_KEY : String := "sk-LDYDnMFSsPZAPbHVkwrPbA"

/-- The bearer credential the gateway attaches to a model invocation, as a
function of the settings stored at the moment of the call. -/
def bearerForCall (stored : AISettings) : String := API_KEY

/-!
Helper lemmas.
-/

theorem jsStrElem_map (l : List String) :
    (l.map Json.str).map jsStrElem = l := by
  induction l with
  | nil => rfl
  | cons x xs ih => simp [jsStrElem, ih]

theorem paperAnalysis_ofJson_toJson (a : PaperAnalysis) :
    PaperAnalysis.ofJson (PaperAnalysis.toJson a) = a := by
  obtain ⟨ck, ti, au, jo, ye, doi, url, vol, iss, ab, cA, cB, cC, cD, cE⟩ := a
  cases url with
  | none =>
    have h : PaperAnalysis.ofJson (PaperAnalysis.toJson
        ⟨ck, ti, au, jo, ye, doi, none, vol, iss, ab, cA, cB, cC, cD, cE⟩) =
        ⟨ck, ti, (au.map Json.str).map jsStrElem, jo, ye, doi, none, vol,
         iss, ab, cA, cB, cC, cD, cE⟩ := rfl
    rw [h, jsStrElem_map]
  | some u =>
    have h : PaperAnalysis.ofJson (PaperAnalysis.toJson
        ⟨ck, ti, au, jo, ye, doi, some u, vol, iss, ab, cA, cB, cC, cD, cE⟩) =
        ⟨ck, ti, (au.map Json.str).map jsStrElem, jo, ye, doi, some u, vol,
         iss, ab, cA, cB, cC, cD, cE⟩ := rfl
    rw [h, jsStrElem_map]

theorem analyzedPaper_ofJson_toJson (p : AnalyzedPaper) :
    AnalyzedPaper.ofJson (AnalyzedPaper.toJson p) = p := by
  obtain ⟨pid, fn, st, d, em, ud, dup⟩ := p
  have h : AnalyzedPaper.ofJson (AnalyzedPaper.toJson ⟨pid, fn, st, d, em, ud, dup⟩) =
      ⟨pid, fn, st, d.map (fun x => PaperAnalysis.ofJson (PaperAnalysis.toJson x)),
       em, ud, dup⟩ := by
    cases st <;> cases d <;> cases em <;> cases dup <;> rfl
  rw [h]
  cases d with
  | none => rfl
  | some x => simp [paperAnalysis_ofJson_toJson]

theorem list_map_self {α : Type} (l : List α) (f : α → α)
    (h : ∀ x ∈ l, f x = x) : l.map f = l := by
  induction l with
  | nil => rfl
  | cons x xs ih =>
    simp only [List.map_cons, h x (by simp)]
    rw [ih (fun y hy => h y (by simp [hy]))]

theorem list_any_filter {α : Type} (l : List α) (p q : α → Bool)
    (h : ∀ x, p x = true → q x = true) :
    (l.filter q).any p = l.any p := by
  induction l with
  | nil => rfl
  | cons x xs ih =>
    by_cases hq : q x = true
    · simp [List.filter_cons, hq, ih]
    · have hp : p x = false := by
        cases hpx : p x with
        | false => rfl
        | true => exact absurd (h x hpx) hq
      simp [List.filter_cons, hq, hp, ih]

/-- Fresh-id form of the success commit: the head is the fresh record and
no other record is touched. -/
theorem commitComplete_cons_fresh (newId : String) (analysis : PaperAnalysis)
    (hd : AnalyzedPaper) (papers : List AnalyzedPaper)
    (hhd : hd.id = newId) (hfresh : ∀ p ∈ papers, p.id ≠ newId) :
    commitComplete newId analysis (hd :: papers) =
      { hd with status := PaperStatus.complete, data := some analysis,
                isDuplicate := some (dupScan newId analysis (hd :: papers)) }
        :: papers := by
  simp only [commitComplete, List.map_cons]
  rw [if_pos (by simp [hhd])]
  congr 1
  exact list_map_self _ _ (fun p hp => by
    rw [if_neg]
    simp [hfresh p hp])

/-- Fresh-id form of the failure commit. -/
theorem commitFailure_cons_fresh (newId msg : String)
    (hd : AnalyzedPaper) (papers : List AnalyzedPaper)
    (hhd : hd.id = newId) (hfresh : ∀ p ∈ papers, p.id ≠ newId) :
    commitFailure newId msg (hd :: papers) =
      { hd with status := PaperStatus.error, errorMsg := some msg } :: papers := by
  simp only [commitFailure, List.map_cons]
  rw [if_pos (by simp [hhd])]
  congr 1
  exact list_map_self _ _ (fun p hp => by
    rw [if_neg]
    simp [hfresh p hp])

/-!
Sample data used by concrete witnesses and counterexamples.
-/

def emptyCats : CategoryA × CategoryB × CategoryC × CategoryD × CategoryE :=
  (⟨"", "", "", ""⟩, ⟨"", "", "", "", "", ""⟩, ⟨"", "", "", ""⟩,
   ⟨"", "", "", "", ""⟩, ⟨"", "", "", "", ""⟩)

def sampleAnalysis (title doi : String) (authors : List String) : PaperAnalysis :=
  { citationKey := "", title := title, authors := authors, journal := "",
    year := "", doi := doi, url := none, volume := "", issue := "",
    abstract := "", categoryA := emptyCats.1, categoryB := emptyCats.2.1,
    categoryC := emptyCats.2.2.1, categoryD := emptyCats.2.2.2.1,
    categoryE := emptyCats.2.2.2.2 }

/-- Paper A of the spec's duplicate scenario: committed with DOI `10.1/x`. -/
def docA : PaperAnalysis := sampleAnalysis "Paper A" "10.1/x" ["Jane Doe"]

/-- Paper B of the spec's duplicate scenario: extracted DOI `10.1/X`. -/
def docB : PaperAnalysis := sampleAnalysis "Paper B" "10.1/X" ["John Smith"]

/-- An extraction with no DOI. -/
def docNoDoi : PaperAnalysis := sampleAnalysis "Paper N" "" ["Jane Doe"]

/-- Paper A's committed collection record. -/
def recA : AnalyzedPaper :=
  { id := "a", fileName := "paperA.pdf", status := PaperStatus.complete,
    data := some docA, errorMsg := none, uploadDate := 1,
    isDuplicate := some false }

/-- Paper B's record as created at accept time. -/
def recB0 : AnalyzedPaper := mkNewPaper "b" "paperB.pdf" 2

/-- A record with Paper A's id but different content (import collision). -/
def recA2 : AnalyzedPaper := { recA with fileName := "paperA_copy.pdf" }

/-- A record with a fresh id (import newcomer). -/
def recC : AnalyzedPaper :=
  { id := "c", fileName := "paperC.pdf", status := PaperStatus.error,
    data := none, errorMsg := some "boom", uploadDate := 3,
    isDuplicate := none }

/-- A committed record whose extraction has an empty DOI. -/
def recEmptyDoi : AnalyzedPaper :=
  { id := "e", fileName := "paperE.pdf", status := PaperStatus.complete,
    data := some docNoDoi, errorMsg := none, uploadDate := 4,
    isDuplicate := some false }

/-!
Claim theorems.
-/

/-- Claim C1: when an analysis with a non-empty extracted DOI completes and
some other record of the collection is `complete` with a non-empty DOI equal
to it after lowercasing and trimming, the commit marks the newly completed
record with `isDuplicate = true` and maps every other record to itself —
duplicate marking is one-directional, only the newest record is flagged. -/
theorem commitComplete_marks_only_new_record
    (newId : String) (analysis : PaperAnalysis) (papers : List AnalyzedPaper)
    (q : AnalyzedPaper) (d : PaperAnalysis)
    (hq : q ∈ papers) (hqid : q.id ≠ newId)
    (hqst : q.status = PaperStatus.complete) (hqd : q.data = some d)
    (hdne : d.doi ≠ "") (hane : analysis.doi ≠ "")
    (hmatch : normalizeDoi d.doi = normalizeDoi analysis.doi) :
    commitComplete newId analysis papers =
      papers.map fun p =>
        if p.id == newId then
          { p with status := PaperStatus.complete, data := some analysis,
                   isDuplicate := some true }
        else p := by
  have hscan : dupScan newId analysis papers = true := by
    rw [dupScan, List.any_eq_true]
    refine ⟨q, hq, ?_⟩
    rw [doiMatch, hqd]
    simp [hqid, hqst, hdne, hane, hmatch]
  simp only [commitComplete, hscan]

/-- Witness for C1: the spec's own scenario — paper B completes with DOI
`10.1/X` while paper A is `complete` with DOI `10.1/x`; B is flagged, A is
mapped to itself. -/
theorem commitComplete_marks_only_new_record_witness :
    recA ∈ [recB0, recA] ∧
    commitComplete "b" docB [recB0, recA] =
      [recB0, recA].map (fun p =>
        if p.id == "b" then
          { p with status := PaperStatus.complete, data := some docB,
                   isDuplicate := some true }
        else p) :=
  ⟨by decide,
   commitComplete_marks_only_new_record "b" docB [recB0, recA] recA docA
     (by decide) (by decide) (by decide) (by decide) (by decide) (by decide)
     (by decide)⟩

/-- Claim C10: a completing analysis whose extracted DOI is empty (or
absent, which the data model stores as the empty string) is committed with
`isDuplicate = false` whatever the other records hold; a record whose own
extraction has an empty DOI never triggers a match; and the scan ignores
every record carrying the new record's id, so a record is never flagged
against its own DOI. -/
theorem commitComplete_empty_doi_never_duplicate
    (newId : String) (analysis : PaperAnalysis) (papers : List AnalyzedPaper) :
    (analysis.doi = "" →
      commitComplete newId analysis papers =
        papers.map fun p =>
          if p.id == newId then
            { p with status := PaperStatus.complete, data := some analysis,
                     isDuplicate := some false }
          else p)
    ∧ ((∀ p ∈ papers, ∀ d, p.data = some d → d.doi = "") →
      commitComplete newId analysis papers =
        papers.map fun p =>
          if p.id == newId then
            { p with status := PaperStatus.complete, data := some analysis,
                     isDuplicate := some false }
          else p)
    ∧ dupScan newId analysis papers =
        dupScan newId analysis (papers.filter fun p => p.id != newId) := by
  refine ⟨?_, ?_, ?_⟩
  · intro hdoi
    have hscan : dupScan newId analysis papers = false := by
      rw [dupScan, List.any_eq_false]
      intro p _
      rw [doiMatch, hdoi]
      cases p.data <;> simp
    simp only [commitComplete, hscan]
  · intro hall
    have hscan : dupScan newId analysis papers = false := by
      rw [dupScan, List.any_eq_false]
      intro p hp
      rw [doiMatch]
      cases hd : p.data with
      | none => simp
      | some d => simp [hall p hp d hd]
    simp only [commitComplete, hscan]
  · rw [dupScan, dupScan]
    refine (list_any_filter papers _ _ ?_).symm
    intro p hp
    rw [doiMatch] at hp
    exact ((Bool.and_eq_true _ _).mp ((Bool.and_eq_true _ _).mp hp).1).1

/-- Witness for C10: committing an extraction with an empty DOI next to a
completed record yields `isDuplicate = false`. -/
theorem commitComplete_empty_doi_never_duplicate_witness :
    docNoDoi.doi = "" ∧
    commitComplete "n" docNoDoi [recEmptyDoi] =
      [recEmptyDoi].map (fun p =>
        if p.id == "n" then
          { p with status := PaperStatus.complete, data := some docNoDoi,
                   isDuplicate := some false }
        else p) :=
  ⟨rfl, (commitComplete_empty_doi_never_duplicate "n" docNoDoi [recEmptyDoi]).1 rfl⟩

/-- Claim C6: merge import keeps every existing record unmodified (the
result starts with the old collection), a record of the result is either an
old record or an imported one whose id did not occur before (id collisions
are silently dropped, no error path exists), and a batch of one colliding
and one fresh record grows the collection by exactly one. -/
theorem mergeImport_keeps_existing_skips_collisions
    (prev batch : List AnalyzedPaper) (a b : AnalyzedPaper) :
    ((mergeImport prev batch).take prev.length = prev)
    ∧ (∀ p, p ∈ mergeImport prev batch ↔
        p ∈ prev ∨ (p ∈ batch ∧ ∀ q ∈ prev, q.id ≠ p.id))
    ∧ ((∃ q ∈ prev, q.id = a.id) → (∀ q ∈ prev, q.id ≠ b.id) →
        (mergeImport prev [a, b]).length = prev.length + 1) := by
  refine ⟨?_, ?_, ?_⟩
  · simp [mergeImport, List.take_left]
  · intro p
    simp [mergeImport, List.mem_filter]
  · intro ⟨qa, hqa, hqaid⟩ hbfresh
    have ha : ¬ (∀ x ∈ prev, ¬ x.id = a.id) := fun h => h qa hqa hqaid
    have hb : ∀ x ∈ prev, ¬ x.id = b.id := fun q hq => hbfresh q hq
    simp only [mergeImport, List.filter_cons]
    simp [ha, hb, if_pos hb]

/-- Witness for C6: importing a batch with one record whose id `a` already
exists and one fresh record grows the collection from one record to two. -/
theorem mergeImport_keeps_existing_skips_collisions_witness :
    recA.id = recA2.id ∧ recA.id ≠ recC.id ∧
    (mergeImport [recA] [recA2, recC]).length = [recA].length + 1 :=
  ⟨rfl, by decide,
   (mergeImport_keeps_existing_skips_collisions [recA] [recA2, recC] recA2 recC).2.2
     (by exact ⟨recA, by simp, rfl⟩) (by decide)⟩

/-- Claim C7: exporting the full backup snapshot (the JSON array of all
`AnalyzedPaper` records) and importing it in replace mode restores the
collection exactly — same records, ids, statuses and data. -/
theorem importReplace_exportBackup_roundtrip (papers : List AnalyzedPaper) :
    importReplace (exportBackup papers) = some papers := by
  show some (List.map AnalyzedPaper.ofJson (papers.map AnalyzedPaper.toJson)) =
    some papers
  rw [List.map_map]
  exact congrArg some (list_map_self _ _ (fun p _ => analyzedPaper_ofJson_toJson p))

/-- Claim C5: when the registry is unreachable, the lookup errors (fetch or
body decoding throws — all swallowed by the `catch`), or the query matches
nothing (`message.items` empty), enrichment returns its input unchanged in
every field — so enriching an already-enriched record against an
unreachable registry is the identity — and the accept pipeline of a paper
whose draft went through such a failed enrichment still commits the record
as `complete`. -/
theorem enrichWithCrossRef_failure_is_identity :
    (∀ a, enrichWithCrossRef (fun _ => RegistryResult.failure) a = a)
    ∧ (∀ a, enrichWithCrossRef (fun _ => RegistryResult.items []) a = a)
    ∧ (∀ a newId fileName uploadDate,
        acceptPipeline newId fileName uploadDate []
          (Except.ok (enrichWithCrossRef (fun _ => RegistryResult.failure) a)) =
        [{ mkNewPaper newId fileName uploadDate with
           status := PaperStatus.complete, data := some a,
           isDuplicate := some false }]) := by
  have h1 : ∀ a, enrichWithCrossRef (fun _ => RegistryResult.failure) a = a :=
    fun a => rfl
  refine ⟨h1, fun a => rfl, ?_⟩
  intro a newId fileName uploadDate
  show commitComplete newId (enrichWithCrossRef (fun _ => RegistryResult.failure) a)
      (acceptStart newId fileName uploadDate []) = _
  rw [h1]
  rw [show acceptStart newId fileName uploadDate [] =
    [mkNewPaper newId fileName uploadDate] from rfl]
  rw [commitComplete_cons_fresh newId a (mkNewPaper newId fileName uploadDate) []
    rfl (by simp)]
  have hscan : dupScan newId a [mkNewPaper newId fileName uploadDate] = false := by
    simp [dupScan, doiMatch, mkNewPaper]
  rw [hscan]

/-- Claim C8: an accepted paper's record is created in `analyzing` status
and transitions exactly once, terminally: on success to `complete` with the
extracted record attached and the duplicate flag computed, on any error
raised between text extraction and structured analysis to `error` with the
human-readable message attached; in both cases no other record of the
collection is touched and the pipeline performs no retry (the commit is a
single-shot function of the one outcome). -/
theorem acceptPipeline_lifecycle
    (newId fileName : String) (uploadDate : Nat) (papers : List AnalyzedPaper)
    (hfresh : ∀ p ∈ papers, p.id ≠ newId) :
    (acceptStart newId fileName uploadDate papers =
      mkNewPaper newId fileName uploadDate :: papers)
    ∧ (mkNewPaper newId fileName uploadDate).status = PaperStatus.analyzing
    ∧ (∀ analysis, acceptPipeline newId fileName uploadDate papers
        (Except.ok analysis) =
        { mkNewPaper newId fileName uploadDate with
          status := PaperStatus.complete, data := some analysis,
          isDuplicate := some (dupScan newId analysis
            (acceptStart newId fileName uploadDate papers)) } :: papers)
    ∧ (∀ msg, acceptPipeline newId fileName uploadDate papers
        (Except.error msg) =
        { mkNewPaper newId fileName uploadDate with
          status := PaperStatus.error, errorMsg := some msg } :: papers) := by
  refine ⟨rfl, rfl, ?_, ?_⟩
  · intro analysis
    show commitComplete newId analysis
      (mkNewPaper newId fileName uploadDate :: papers) = _
    exact commitComplete_cons_fresh newId analysis _ papers rfl hfresh
  · intro msg
    show commitFailure newId msg
      (mkNewPaper newId fileName uploadDate :: papers) = _
    exact commitFailure_cons_fresh newId msg _ papers rfl hfresh

/-- Witness for C8: accepting paper B next to the completed paper A record
commits `complete` with data attached on success and `error` with the
message attached on failure. -/
theorem acceptPipeline_lifecycle_witness :
    recA.id ≠ "b" ∧
    acceptPipeline "b" "paperB.pdf" 2 [recA] (Except.ok docB) =
      { mkNewPaper "b" "paperB.pdf" 2 with
        status := PaperStatus.complete, data := some docB,
        isDuplicate := some (dupScan "b" docB
          (acceptStart "b" "paperB.pdf" 2 [recA])) } :: [recA] ∧
    acceptPipeline "b" "paperB.pdf" 2 [recA] (Except.error "Analysis Failed") =
      { mkNewPaper "b" "paperB.pdf" 2 with
        status := PaperStatus.error,
        errorMsg := some "Analysis Failed" } :: [recA] :=
  ⟨by decide,
   (acceptPipeline_lifecycle "b" "paperB.pdf" 2 [recA] (by decide)).2.2.1 docB,
   (acceptPipeline_lifecycle "b" "paperB.pdf" 2 [recA] (by decide)).2.2.2
     "Analysis Failed"⟩

/-- A model response reporting `score` 39 together with `isRelevant` true,
exercising that the screener does not recompute the threshold rule. -/
def score39Response : String :=
  "\x7b\"isRelevant\": true, \"score\": 39, \"reasoning\": \"ok\", \"matchedSections\": []\x7d"

/-- Counterexample to claim C2: the screener returns a parsed response with
`score` 39 and `isRelevant = true` as-is, although `39 >= 40` is false —
the returned `isRelevant` is not the code's function of the score. -/
theorem checkPaperRelevance_threshold_counterexample :
    checkPaperRelevanceResponse (some score39Response) =
      Except.ok { isRelevant := true, score := 39, reasoning := "ok",
                  matchedSections := [] } ∧
    decide ((39 : Int) ≥ 40) = false :=
  ⟨rfl, rfl⟩

/-- Claim C2 (amended): the screener forwards the model-reported fields
verbatim — the returned result is exactly the parsed response, with
`isRelevant` read from the response rather than recomputed, so
`isRelevant = (score >= 40)` holds exactly when the model's reported fields
already satisfy it (the rule lives in the prompt, not in the code). -/
theorem checkPaperRelevance_returns_fields_verbatim
    (b : Bool) (n : Int) (reasoning : String) (ms : List String) :
    RelevanceResult.ofJson (mkRelevanceJson b n reasoning ms) =
      { isRelevant := b, score := n, reasoning := reasoning,
        matchedSections := ms }
    ∧ (∀ text, checkPaperRelevanceResponse (some text) =
        (Json.parse text).map RelevanceResult.ofJson) := by
  constructor
  · have h : RelevanceResult.ofJson (mkRelevanceJson b n reasoning ms) =
        ⟨b, n, reasoning, (ms.map Json.str).map jsStrElem⟩ := rfl
    rw [h, jsStrElem_map]
  · intro text
    cases h : Json.parse text <;>
      simp [checkPaperRelevanceResponse, h, Except.map]

/-- A model response wrapped in three-backtick `json` fences whose inner
content is valid JSON. -/
def fencedResponse : String :=
  "```json\n\x7b \"title\": \"Paper B\" \x7d\n```"

/-- Counterexample to claim C3: the fence-stripped text parses as JSON,
yet the extractor rejects the response with a parse error, because it runs
`JSON.parse` on the raw text without any fence-stripping. -/
theorem analyzePaper_fenced_counterexample :
    Json.parse (specStripCodeFences fencedResponse) =
      Except.ok (Json.obj [("title", Json.str "Paper B")]) ∧
    analyzePaperResponse (some fencedResponse) (fun _ => RegistryResult.failure) =
      Except.error "Unexpected token in JSON" :=
  ⟨rfl, rfl⟩

/-- Claim C3 (amended): the extractor parses the raw response text directly
— it returns a record exactly when the unstripped text is valid JSON, and
fails with a parse error otherwise, so a fence-wrapped response fails even
though its fence-stripped content is valid JSON. -/
theorem analyzePaperResponse_parses_raw_text
    (text : String) (lookup : RegistryRequest → RegistryResult) :
    (∃ a, analyzePaperResponse (some text) lookup = Except.ok a) ↔
    (∃ j, Json.parse text = Except.ok j) := by
  cases h : Json.parse text <;> simp [analyzePaperResponse, h]

/-- Counterexample to claim C4: on a record whose DOI is present and
non-empty, the enrichment stage still queries the registry by the
constructed title-plus-surname string, never by the DOI; and on a hit it
overwrites the `doi` field with the hit's DOI unconditionally while leaving
`journal` (and `volume`, `issue`, `year`) untouched. -/
theorem enrichWithCrossRef_ignores_doi_counterexample :
    docA.doi = "10.1/x" ∧
    crossRefRequest docA = RegistryRequest.byQuery "Paper A Doe" ∧
    crossRefRequest docA ≠ RegistryRequest.byDoi "10.1/x" ∧
    (enrichWithCrossRef (fun _ => RegistryResult.items [⟨"10.9/z"⟩]) docA).doi =
      "10.9/z" ∧
    (enrichWithCrossRef (fun _ => RegistryResult.items [⟨"10.9/z"⟩]) docA).journal =
      docA.journal :=
  ⟨rfl, by decide, by decide, rfl, rfl⟩

/-- Claim C4 (amended): the enrichment stage always queries the registry by
the free-text string built from the title and the first author's last
space-separated word, regardless of the record's DOI; on a registry hit it
rewrites exactly the `doi` and `url` fields from the top item — every other
field of the record (journal, volume, issue, year included) is preserved. -/
theorem enrichWithCrossRef_query_only
    (a : PaperAnalysis) (lookup : RegistryRequest → RegistryResult)
    (item : RegistryItem) (rest : List RegistryItem)
    (hhit : lookup (crossRefRequest a) = RegistryResult.items (item :: rest)) :
    crossRefRequest a =
      RegistryRequest.byQuery (a.title ++ " " ++ jsLastWord (a.authors.headD ""))
    ∧ enrichWithCrossRef lookup a =
      { a with doi := item.DOI,
               url := some ("https://doi.org/" ++ item.DOI) } := by
  refine ⟨rfl, ?_⟩
  rw [enrichWithCrossRef, hhit]

/-- Witness for the amended C4 theorem at a concrete record and registry. -/
theorem enrichWithCrossRef_query_only_witness :
    (fun _ : RegistryRequest => RegistryResult.items [RegistryItem.mk "10.9/z"])
      (crossRefRequest docA) = RegistryResult.items [RegistryItem.mk "10.9/z"] ∧
    enrichWithCrossRef (fun _ => RegistryResult.items [RegistryItem.mk "10.9/z"])
      docA =
      { docA with doi := RegistryItem.mk "10.9/z" |>.DOI,
                  url := some ("https://doi.org/" ++ (RegistryItem.mk "10.9/z").DOI) } :=
  ⟨rfl,
   (enrichWithCrossRef_query_only docA
     (fun _ => RegistryResult.items [RegistryItem.mk "10.9/z"])
     (RegistryItem.mk "10.9/z") [] rfl).2⟩

/-- The settings as saved after the operator switches the credential. -/
def changedSettings : AISettings :=
  { provider := Provider.claude, orangeApiKey := "key-B", geminiApiKey := "",
    projectTitle := "", projectDescription := "", researchFocus := "",
    conferenceTarget := "", paperSections := "", citationGoal := 70 }

/-- Claim C9 (code bug): the credential used by a model invocation is the
module-level constant baked into the service at load time — it is
independent of the stored settings, so changing the configured credential
between two uploads does not change the credential the second upload's
calls use, although the settings panel collects and saves exactly that
credential for this purpose. -/
theorem bearerForCall_is_module_constant :
    (∀ s t : AISettings, bearerForCall s = bearerForCall t)
    ∧ bearerForCall changedSettings = "sk-LDYDnMFSsPZAPbHVkwrPbA"
    ∧ changedSettings.orangeApiKey = "key-B"
    ∧ bearerForCall changedSettings ≠ changedSettings.orangeApiKey :=
  ⟨fun _ _ => rfl, rfl, rfl, by decide⟩
